import Mathlib

/-!
Shallow embedding of the iqdb image-similarity store (Varunda/iqdb).

The embedding follows `src/imgdb.cpp`, `src/sqlite_db.cpp` and
`src/resizer.cpp`.  The repository ships without `include/iqdb/imglib.h`
and `include/iqdb/haar_signature.h`; the constants and the signature
value type that those headers declare are modelled from the spec and are
marked as such in their doc comments.  C++ `float`/`double` scores are
modelled as `ℚ` (the narrowing cast `static_cast<Score>` is the identity
on the values used here); machine integers are modelled as `ℕ`/`ℤ`.
-/

namespace Iqdb

/-- `using postId = std::string` (types.h). -/
abbrev postId := String

/-- `using Score = float` (types.h); modelled as `ℚ`. -/
abbrev Score := ℚ

/-- Modelled from the spec: `K = 40` coefficients per plane
(`NUM_COEFS`, declared in the missing `imglib.h`). -/
def NUM_COEFS : ℕ := 40

/-- Modelled from the spec: the `HaarSignature` value type declared in the
missing `haar_signature.h`: `double avglf[3]` plus `int16_t sig[3][40]`. -/
structure HaarSignature where
  avglf : Fin 3 → ℚ
  sig : Fin 3 → Fin NUM_COEFS → ℤ

/-- Modelled from the spec: signatures always carry the three YIQ planes,
so `HaarSignature::num_colors()` is `3`. -/
def HaarSignature.num_colors (_ : HaarSignature) : ℕ := 3

/-- `typedef std::vector<postId> bucket_t` — one leaf of the inverted index. -/
abbrev bucket_t := List postId

/-- The inverted index: a fixed-shape array
`bucket_t buckets[3][2][16384]` (spec §3), indexed by
(channel, sign bit, |coefficient position|). -/
structure bucket_set where
  buckets : Fin 3 → Bool → ℕ → bucket_t

/-- A freshly value-initialized `bucket_set()`: every leaf empty. -/
def bucket_set.emptySet : bucket_set := ⟨fun _ _ _ => []⟩

/-- `bucket_set::at` (imgdb.cpp:51-54): `sign = coef < 0`, index `abs(coef)`. -/
def bucket_set.atCoef (bs : bucket_set) (color : Fin 3) (coef : ℤ) : bucket_t :=
  bs.buckets color (decide (coef < 0)) coef.natAbs

/-- Replace the one leaf addressed by `(color, coef)` with `f` of it,
leaving every other leaf alone (the effect of mutating the reference
returned by `bucket_set::at`). -/
def bucket_set.updateAt (bs : bucket_set) (color : Fin 3) (coef : ℤ)
    (f : bucket_t → bucket_t) : bucket_set :=
  ⟨fun c s i =>
    if c = color ∧ s = decide (coef < 0) ∧ i = coef.natAbs then
      f (bs.buckets c s i)
    else bs.buckets c s i⟩

/-- The loop order of `bucket_set::eachBucket` (imgdb.cpp:56-64) and of the
query sweep (imgdb.cpp:151-175): channel `c` outer, coefficient slot `i`
inner. -/
def sigPairs : List (Fin 3 × Fin NUM_COEFS) :=
  (List.finRange 3).product (List.finRange NUM_COEFS)

/-- `bucket_set::eachBucket` (imgdb.cpp:56-64): apply `f` to the leaf of
every `(c, sig[c][i])` of the signature, in loop order. -/
def bucket_set.eachBucket (bs : bucket_set) (sig : HaarSignature)
    (f : bucket_t → bucket_t) : bucket_set :=
  sigPairs.foldl (fun b ci => b.updateAt ci.1 (sig.sig ci.1 ci.2) f) bs

/-- `bucket_set::add` (imgdb.cpp:38-42): `push_back` the id into each
touched leaf. -/
def bucket_set.addSig (bs : bucket_set) (sig : HaarSignature) (iqdb_id : postId) :
    bucket_set :=
  bs.eachBucket sig (fun bucket => bucket ++ [iqdb_id])

/-- `bucket_set::remove` (imgdb.cpp:44-49): erase-remove every occurrence
of the id from each touched leaf. -/
def bucket_set.removeSig (bs : bucket_set) (sig : HaarSignature) (iqdb_id : postId) :
    bucket_set :=
  bs.eachBucket sig (fun bucket => bucket.filter (fun x => x ≠ iqdb_id))

/-- `struct image_info` (imgdb.h): id plus `lumin_native avgl` (`Score v[3]`). -/
structure image_info where
  id : postId
  avgl : Fin 3 → Score

/-- `std::map<postId, image_info>::emplace` (imgdb.cpp:84): inserts only
when the key is absent; an existing entry is left untouched. -/
def infoEmplace (m : List (postId × image_info)) (k : postId) (v : image_info) :
    List (postId × image_info) :=
  if (m.lookup k).isSome then m else m ++ [(k, v)]

/-- `m_info.at(id).avgl.v[0] = 0` (imgdb.cpp:224): zero the first DC average
of the entry for `k`.  (`at` throws when the key is absent; on the states
reached here the key is always present, and the model leaves an absent-key
call a no-op.) -/
def infoZeroAvgl0 (m : List (postId × image_info)) (k : postId) :
    List (postId × image_info) :=
  m.map (fun p =>
    if p.1 = k then
      (p.1, { p.2 with avgl := fun c => if c = 0 then 0 else p.2.avgl c })
    else p)

/-- The persisted `images` table keyed by `post_id` (sqlite_db.cpp); each
row stores the signature (`avglf1..3` plus the 240-byte `sig` blob, whose
serialization round-trips exactly, so the row is modelled as the
signature itself).  `getImage` is `List.lookup`. -/
abbrev sqliteTable := List (postId × HaarSignature)

/-- `SqliteDB::addImage` (sqlite_db.cpp:38-53): inside one transaction,
`removeImage(post_id)` then `storage_.replace(image)`. -/
def sqliteReplace (m : sqliteTable) (k : postId) (v : HaarSignature) : sqliteTable :=
  m.filter (fun p => p.1 ≠ k) ++ [(k, v)]

/-- `SqliteDB::removeImage` (sqlite_db.cpp:55-57): delete all rows with
this `post_id`. -/
def sqliteRemove (m : sqliteTable) (k : postId) : sqliteTable :=
  m.filter (fun p => p.1 ≠ k)

/-- The in-memory state of class `IQDB`: the inverted index `imgbuckets`,
the info table `m_info`, the live-image counter `img_count`, and the
backing sqlite table. -/
structure IQDB where
  imgbuckets : bucket_set
  m_info : List (postId × image_info)
  img_count : ℕ
  sqlite_db : sqliteTable

/-- Modelled from the spec: a fresh store (empty database file, counters
zero-initialized; the member initializers live in the missing header). -/
def IQDB.emptyDB : IQDB :=
  { imgbuckets := bucket_set.emptySet, m_info := [], img_count := 0, sqlite_db := [] }

/-- `IQDB::addImageInMemory` (imgdb.cpp:74-85): add to the buckets,
increment `img_count`, build an `image_info` whose `avgl` casts the
signature's `avglf`, and `emplace` it into `m_info`. -/
def IQDB.addImageInMemory (db : IQDB) (post_id : postId) (haar : HaarSignature) : IQDB :=
  { db with
    imgbuckets := db.imgbuckets.addSig haar post_id
    img_count := db.img_count + 1
    m_info := infoEmplace db.m_info post_id
      { id := post_id, avgl := fun c => haar.avglf c } }

/-- `IQDB::removeImage` (imgdb.cpp:216-229): look the id up in sqlite; when
absent, warn and return; otherwise retract the persisted signature from the
buckets, zero `avgl.v[0]` in `m_info`, delete the row, decrement `img_count`. -/
def IQDB.removeImage (db : IQDB) (post_id : postId) : IQDB :=
  match db.sqlite_db.lookup post_id with
  | none => db
  | some haar =>
    { db with
      imgbuckets := db.imgbuckets.removeSig haar post_id
      m_info := infoZeroAvgl0 db.m_info post_id
      sqlite_db := sqliteRemove db.sqlite_db post_id
      img_count := db.img_count - 1 }

/-- `IQDB::addImage` (imgdb.cpp:66-72): `removeImage(post_id)`, then the
sqlite write, then `addImageInMemory`. -/
def IQDB.addImage (db : IQDB) (post_id : postId) (haar : HaarSignature) : IQDB :=
  let db1 := db.removeImage post_id
  let db2 := { db1 with sqlite_db := sqliteReplace db1.sqlite_db post_id haar }
  db2.addImageInMemory post_id haar

/-- `IQDB::loadDatabase` (imgdb.cpp:87-101): clear `m_info`, reset the
bucket set, then replay `addImageInMemory` over every persisted row.
Note that `img_count` is not reset. -/
def IQDB.loadDatabase (db : IQDB) : IQDB :=
  let db0 : IQDB := { db with m_info := [], imgbuckets := bucket_set.emptySet }
  db.sqlite_db.foldl (fun acc row => acc.addImageInMemory row.1 row.2) db0

/-- `IQDB::isDeleted` (imgdb.cpp:103-105): `!m_info.at(id).avgl.v[0]`.
`at` throws when the id is absent, modelled as `none`. -/
def IQDB.isDeleted (db : IQDB) (iqdb_id : postId) : Option Bool :=
  (db.m_info.lookup iqdb_id).map (fun info => decide (info.avgl 0 = 0))

/-- `IQDB::getImgCount` (imgdb.cpp:231-233). -/
def IQDB.getImgCount (db : IQDB) : ℕ := db.img_count

/-- `sim_vector` (imgdb.h): the query result list of `sim_value`
(id, score) pairs. -/
abbrev sim_vector := List (postId × Score)

/-- The DC-luminance baseline of one image against the query
(imgdb.cpp:126-135): `Σ_c weights[0][c] * |avgl.v[c] - avglf[c]|`.
The weight table lives in the missing `imglib.h`, so it is taken as a
parameter. -/
def dcScore (weights : Fin 6 → Fin 3 → Score) (info : image_info)
    (signature : HaarSignature) : Score :=
  ∑ c : Fin 3, weights 0 c * |info.avgl c - signature.avglf c|

/-- `scores[index] -= weight` on `std::map<postId, Score>` (imgdb.cpp:171):
`operator[]` value-initializes an absent entry to `0` before the
subtraction. -/
def scoresSub (m : List (postId × Score)) (k : postId) (w : Score) :
    List (postId × Score) :=
  if (m.lookup k).isSome then
    m.map (fun p => if p.1 = k then (p.1, p.2 - w) else p)
  else m ++ [(k, 0 - w)]

/-- Reading a leaf through `bucket_set::at` (imgdb.cpp:154): the member
returns a reference into the fixed-shape array, so the access itself
produces the bucket's contents and leaves the array as it was. -/
def bucket_set.atAccess (bs : bucket_set) (color : Fin 3) (coef : ℤ) :
    bucket_t × bucket_set :=
  (bs.atCoef color coef, bs)

/-- One iteration of the query's bucket sweep (imgdb.cpp:151-175) over the
accumulator (bucket set, `scale`, `scores`): skip empty buckets, otherwise
look up the weight of the coefficient's bin, subtract it from `scale`, and
subtract it from the score of every id in the bucket.  `imgBin` is the
precomputed bin lookup from the missing `imglib.h`, taken as a parameter. -/
def sweepStep (weights : Fin 6 → Fin 3 → Score) (imgBin : ℕ → Fin 6)
    (signature : HaarSignature)
    (acc : bucket_set × Score × List (postId × Score))
    (cb : Fin 3 × Fin NUM_COEFS) : bucket_set × Score × List (postId × Score) :=
  let coef := signature.sig cb.1 cb.2
  let br := acc.1.atAccess cb.1 coef
  if br.1 = [] then (br.2, acc.2)
  else
    let w := weights (imgBin coef.natAbs) cb.1
    (br.2, acc.2.1 - w, br.1.foldl (fun m idx => scoresSub m idx w) acc.2.2)

/-- `IQDB::queryFromSignature` (imgdb.cpp:116-214), as a state-passing
operation returning the object state left behind plus the result list.
The DC baseline fills `scores` from `m_info`; the bucket sweep updates
`scale` and `scores`.  The top-N heap fill, the rescaling and the output
construction (source lines 182-210) are commented out in the source, so
the output vector `V` is never pushed to and the function returns the
reverse of the empty list. -/
def IQDB.queryFromSignatureOp (weights : Fin 6 → Fin 3 → Score)
    (imgBin : ℕ → Fin 6) (db : IQDB) (signature : HaarSignature)
    (numres : ℕ) : IQDB × sim_vector :=
  let scale : Score := 0
  let scores : List (postId × Score) :=
    db.m_info.map (fun e => (e.1, dcScore weights e.2 signature))
  let swept := sigPairs.foldl (sweepStep weights imgBin signature)
    (db.imgbuckets, scale, scores)
  let V : sim_vector := []
  ({ db with imgbuckets := swept.1 }, V.reverse)

/-- The result list of `IQDB::queryFromSignature`. -/
def IQDB.queryFromSignature (weights : Fin 6 → Fin 3 → Score)
    (imgBin : ℕ → Fin 6) (db : IQDB) (signature : HaarSignature)
    (numres : ℕ) : sim_vector :=
  (db.queryFromSignatureOp weights imgBin signature numres).2

/-- `IQDB::queryFromBlob` (imgdb.cpp:111-114): extract the signature from
the blob with `HaarSignature::from_file_content` (declared in the missing
`haar_signature.h`, taken as a parameter) and query with it. -/
def IQDB.queryFromBlobOp (weights : Fin 6 → Fin 3 → Score)
    (imgBin : ℕ → Fin 6) (from_file_content : List ℕ → HaarSignature)
    (db : IQDB) (blob : List ℕ) (numres : ℕ) : IQDB × sim_vector :=
  let signature := from_file_content blob
  db.queryFromSignatureOp weights imgBin signature numres

/-- The result list of `IQDB::queryFromBlob`. -/
def IQDB.queryFromBlob (weights : Fin 6 → Fin 3 → Score)
    (imgBin : ℕ → Fin 6) (from_file_content : List ℕ → HaarSignature)
    (db : IQDB) (blob : List ℕ) (numres : ℕ) : sim_vector :=
  (db.queryFromBlobOp weights imgBin from_file_content blob numres).2

/-- Total number of bucket entries that reference an id, over all
3 × 2 × 16384 leaves of the inverted index (spec §3). -/
def bucket_set.refCount (bs : bucket_set) (iqdb_id : postId) : ℕ :=
  ∑ c : Fin 3, ∑ s : Bool, ∑ i : Fin 16384, (bs.buckets c s i.val).count iqdb_id

/-- The index/info consistency invariant of spec §8.2: every id whose info
entry is live (not tombstoned) is referenced by exactly `3 * NUM_COEFS`
bucket entries, and no bucket references an id whose info entry is
tombstoned (`avgl[0] = 0`, the code's deleted marker). -/
def indexInfoConsistent (db : IQDB) : Prop :=
  (∀ iqdb_id info, db.m_info.lookup iqdb_id = some info → info.avgl 0 ≠ 0 →
      db.imgbuckets.refCount iqdb_id = 3 * NUM_COEFS) ∧
  (∀ iqdb_id c s i, iqdb_id ∈ db.imgbuckets.buckets c s i →
      ∀ info, db.m_info.lookup iqdb_id = some info → info.avgl 0 ≠ 0)

/-- Number of live (non-tombstoned) entries of the info table. -/
def liveCount (db : IQDB) : ℕ :=
  (db.m_info.filter (fun p => decide (p.2.avgl 0 ≠ 0))).length

/-- A concrete valid signature: DC averages `(1,1,1)`, coefficient
positions `+1..+40` in each plane (in range `[1,16383]`, pairwise distinct
per plane). -/
def sigX : HaarSignature :=
  { avglf := fun _ => 1, sig := fun _ i => (i.val : ℤ) + 1 }

/-- A second concrete valid signature, distinct from `sigX`: DC averages
`(2,2,2)`, coefficient positions `-1..-40` in each plane. -/
def sigY : HaarSignature :=
  { avglf := fun _ => 2, sig := fun _ i => -((i.val : ℤ) + 1) }

/-- A signature of a legitimately black image: `avglf[0] = 0` with the
other planes non-zero. -/
def sigBlack : HaarSignature :=
  { avglf := fun c => if c = 0 then 0 else 1, sig := fun _ i => (i.val : ℤ) + 1 }

/-- The store after `add("b", sigX)` followed by `add("b", sigY)` on a
fresh store. -/
def stAB : IQDB := (IQDB.emptyDB.addImage "b" sigX).addImage "b" sigY

/-- The store after `add("b", sigY)` alone on a fresh store. -/
def stB : IQDB := IQDB.emptyDB.addImage "b" sigY

/-- The store after ingesting the single image `"a1"` on a fresh store. -/
def stA1 : IQDB := IQDB.emptyDB.addImage "a1" sigX

/-- The store after ingesting a black image (`avglf[0] = 0`) that is never
removed. -/
def stBlack : IQDB := IQDB.emptyDB.addImage "a" sigBlack

/-- A fresh process whose database file holds one persisted row. -/
def stFile : IQDB := { IQDB.emptyDB with sqlite_db := [("c", sigX)] }

/-- `stFile` after one `loadDatabase`. -/
def stLoad1 : IQDB := stFile.loadDatabase

/-- `stFile` after a second `loadDatabase` on the same file. -/
def stLoad2 : IQDB := stLoad1.loadDatabase

/-- `enum image_types` (resizer.cpp:31). -/
inductive image_types
  | IMG_UNKNOWN
  | IMG_JPEG
deriving DecidableEq

/-- The relevant observable fields of a decoded `gdImage`: dimensions and
whether it is truecolor. -/
structure RawImage where
  sx : ℕ
  sy : ℕ
  trueColor : Bool

/-- The `image_error` outcomes thrown by `resize_image_data`
(resizer.cpp:45,50,55). -/
inductive image_error
  | unsupportedFormat
  | outOfMemory
  | decodeFailed

/-- `get_image_info` (resizer.cpp:33-39): a blob is JPEG exactly when its
length is at least 2 and its first two bytes are `0xff 0xd8`. -/
def get_image_info (data : List ℕ) : image_types :=
  match data with
  | b0 :: b1 :: _ =>
    if b0 = 0xff ∧ b1 = 0xd8 then image_types.IMG_JPEG else image_types.IMG_UNKNOWN
  | _ => image_types.IMG_UNKNOWN

/-- `resize_image_data` (resizer.cpp:41-66).  The libgd collaborators
(truecolor allocation, JPEG decoding, resampling) are external and taken
as parameters; `none` models their failure returns. -/
def resize_image_data (gdCreateTrueColor : ℕ → ℕ → Option RawImage)
    (gdDecodeJpeg : List ℕ → Option RawImage)
    (gdCopyResampled : RawImage → RawImage → ℕ → ℕ → RawImage)
    (data : List ℕ) (thu_x thu_y : ℕ) : Except image_error RawImage :=
  let type := get_image_info data
  if type ≠ image_types.IMG_JPEG then Except.error image_error.unsupportedFormat
  else
    match gdCreateTrueColor thu_x thu_y with
    | none => Except.error image_error.outOfMemory
    | some thu =>
      match gdDecodeJpeg data with
      | none => Except.error image_error.decodeFailed
      | some img =>
        if img.sx = thu_x ∧ img.sy = thu_y ∧ img.trueColor then Except.ok img
        else Except.ok (gdCopyResampled thu img thu_x thu_y)

/-- Follows the spec's words (§4.1): a blob is "recognized by the
`0xFF 0xD8` magic" when it starts with those two bytes. -/
def startsWithJpegMagicSpec (data : List ℕ) : Bool :=
  match data with
  | b0 :: b1 :: _ => b0 == 0xff && b1 == 0xd8
  | _ => false

/-- A key absent from the front part of an association list is looked up
in the back part. -/
theorem lookup_append_of_none {α β : Type} [BEq α] (l l' : List (α × β)) (k : α)
    (h : l.lookup k = none) : (l ++ l').lookup k = l'.lookup k := by
  induction l with
  | nil => rfl
  | cons hd tl ih =>
    obtain ⟨k1, v1⟩ := hd
    cases hbe : (k == k1) with
    | true => simp [List.lookup, hbe] at h
    | false =>
      simp only [List.cons_append, List.lookup, hbe] at h ⊢
      exact ih h

/-- One sweep step leaves the bucket-set component of the accumulator
untouched: the leaf access returns a reference that the loop only reads. -/
theorem sweepStep_preserves_buckets (weights : Fin 6 → Fin 3 → Score)
    (imgBin : ℕ → Fin 6) (signature : HaarSignature)
    (acc : bucket_set × Score × List (postId × Score))
    (cb : Fin 3 × Fin NUM_COEFS) :
    (sweepStep weights imgBin signature acc cb).1 = acc.1 := by
  unfold sweepStep bucket_set.atAccess
  dsimp only
  split <;> rfl

/-- Folding the sweep over any list of coefficient slots preserves the
bucket-set component of the accumulator. -/
theorem sweepFoldl_preserves_buckets (weights : Fin 6 → Fin 3 → Score)
    (imgBin : ℕ → Fin 6) (signature : HaarSignature)
    (l : List (Fin 3 × Fin NUM_COEFS))
    (acc : bucket_set × Score × List (postId × Score)) :
    (l.foldl (sweepStep weights imgBin signature) acc).1 = acc.1 := by
  induction l generalizing acc with
  | nil => rfl
  | cons hd tl ih =>
    rw [List.foldl_cons, ih, sweepStep_preserves_buckets]

/-- C1: the spec claims that querying with an ingested image's own
signature returns a non-empty list whose first element is that image's
id.  In the code the top-N selection and output construction of
`queryFromSignature` are commented out, so every query — in particular
the self-query of the ingested image `"a1"` in `stA1` — returns the
empty list, for every weight table, bin table, store, signature and
result count. -/
theorem C1_query_always_returns_empty :
    ∀ (weights : Fin 6 → Fin 3 → Score) (imgBin : ℕ → Fin 6) (db : IQDB)
      (signature : HaarSignature) (numres : ℕ),
      db.queryFromSignature weights imgBin signature numres = [] :=
  fun _ _ _ _ _ => rfl

/-- C2: for every store, query signature and result count, the query
returns at most `numres` (id, score) pairs, the scores are in
non-decreasing order, and no returned id is tombstoned.  This holds for
the code — vacuously, because the result list is always empty. -/
theorem C2_query_output_shape :
    ∀ (weights : Fin 6 → Fin 3 → Score) (imgBin : ℕ → Fin 6) (db : IQDB)
      (signature : HaarSignature) (numres : ℕ),
      (db.queryFromSignature weights imgBin signature numres).length ≤ numres ∧
      List.Sorted (· ≤ ·)
        ((db.queryFromSignature weights imgBin signature numres).map Prod.snd) ∧
      ∀ p ∈ db.queryFromSignature weights imgBin signature numres,
        db.isDeleted p.1 ≠ some true := by
  intro weights imgBin db signature numres
  have h : db.queryFromSignature weights imgBin signature numres = [] := rfl
  rw [h]
  exact ⟨Nat.zero_le _, List.sorted_nil, by intro p hp; cases hp⟩

/-- C2 witnessed on a concrete store and query: the shape bounds hold for
the self-query of `stA1` with an all-zero weight table. -/
theorem C2_query_output_shape_witness :
    (stA1.queryFromSignature (fun _ _ => 0) (fun _ => 0) sigX 5).length ≤ 5 ∧
    ((stA1.queryFromSignature (fun _ _ => 0) (fun _ => 0) sigX 5).filter
      (fun p => decide (stA1.isDeleted p.1 = some true))) = [] :=
  ⟨(C2_query_output_shape (fun _ _ => 0) (fun _ => 0) stA1 sigX 5).1,
    List.filter_eq_nil_iff.mpr (fun p hp =>
      ne_true_of_eq_false (decide_eq_false
        ((C2_query_output_shape (fun _ _ => 0) (fun _ => 0) stA1 sigX 5).2.2 p hp)))⟩

set_option maxRecDepth 1000000 in
/-- C3: the spec claims `add(id, X)` then `add(id, Y)` leaves the same
state as `add(id, Y)` alone; in particular the info-table entry for the
id should carry Y's DC averages and not be tombstoned.  In the code
`addImageInMemory` inserts with `std::map::emplace`, which does not
overwrite the entry that `removeImage` just tombstoned: after the double
add of `"b"` the entry keeps `avgl = (0, 1, 1)` (the zeroed first
component and X's remaining averages) and `"b"` counts as deleted, while
the single add gives `avgl = (2, 2, 2)` and a live entry.  The bucket
contents and `img_count` agree between the two runs. -/
theorem C3_double_add_keeps_tombstoned_entry :
    (stAB.m_info.lookup "b").map (fun i => (i.avgl 0, i.avgl 1, i.avgl 2))
        = some (0, 1, 1) ∧
    (stB.m_info.lookup "b").map (fun i => (i.avgl 0, i.avgl 1, i.avgl 2))
        = some (2, 2, 2) ∧
    stAB.isDeleted "b" = some true ∧
    stB.isDeleted "b" = some false ∧
    stAB.img_count = 1 ∧ stB.img_count = 1 := by
  refine ⟨by decide, by decide, by decide, by decide, by decide, by decide⟩

set_option maxRecDepth 1000000 in
/-- C4: the spec claims that after any sequence of add/remove no bucket
references a tombstoned id.  After `add("b", sigX); add("b", sigY)` the
id `"b"` is tombstoned (its `avgl[0]` was zeroed by the inner remove and
`emplace` did not overwrite it) yet Y's 120 bucket entries for `"b"` are
in the index — for instance the leaf for channel 0, negative sign,
position 1 — so the consistency invariant fails on a reachable state. -/
theorem C4_consistency_fails_after_double_add :
    stAB.isDeleted "b" = some true ∧
    "b" ∈ stAB.imgbuckets.buckets 0 true 1 ∧
    indexInfoConsistent stAB = False := by
  have hmem : "b" ∈ stAB.imgbuckets.buckets 0 true 1 := by decide
  have hdel : stAB.isDeleted "b" = some true := by decide
  refine ⟨hdel, hmem, eq_false ?_⟩
  intro h
  cases e : stAB.m_info.lookup "b" with
  | none => rw [IQDB.isDeleted, e] at hdel; exact Option.noConfusion hdel
  | some info =>
    have h0 : info.avgl 0 = 0 := by
      rw [IQDB.isDeleted, e] at hdel
      simpa using hdel
    exact h.2 "b" 0 true 1 hmem info e h0

set_option maxRecDepth 1000000 in
/-- C5: the spec claims `img_count` always equals the number of live
(non-tombstoned) info-table entries.  After `add("b", sigX);
add("b", sigY)` the code has `img_count = 1` but zero live entries,
because the re-added image's entry stayed tombstoned. -/
theorem C5_count_invariant_fails : stAB.img_count = 1 ∧ liveCount stAB = 0 := by
  refine ⟨by decide, by decide⟩

set_option maxRecDepth 1000000 in
/-- C6: the spec claims `load` replays the persisted rows into a cleared
memory state, leaves `img_count` equal to the row count, and that a
second `load` of the same file yields an identical state.  The code's
`loadDatabase` clears `m_info` and the buckets but never resets
`img_count`: on a one-row file the first load ends with `img_count = 1`
and the second with `img_count = 2`, even though the rebuilt info table,
bucket set and persisted table are identical. -/
theorem C6_second_load_doubles_img_count :
    stLoad1.img_count = 1 ∧ stLoad2.img_count = 2 ∧
    stLoad2.m_info = stLoad1.m_info ∧
    stLoad2.imgbuckets = stLoad1.imgbuckets ∧
    stLoad2.sqlite_db = stLoad1.sqlite_db := by
  refine ⟨by decide, by decide, rfl, rfl, rfl⟩

set_option maxRecDepth 1000000 in
/-- C7 counterexample: the spec claims an ingested image that was never
removed is never considered deleted, regardless of its DC averages.  In
the code `isDeleted` is `avgl[0] == 0`, so ingesting the legitimately
black image `sigBlack` (whose `avglf[0]` is `0`) and never removing it
still yields `isDeleted = true`. -/
theorem C7_black_image_reported_deleted : stBlack.isDeleted "a" = some true := by
  decide

/-- C7 amended: an image's info-table entry is considered deleted exactly
when its stored `avgl[0]` equals `0` (removal zeroes that slot, but a
never-removed image whose signature has `avglf[0] = 0` is also considered
deleted); freshly ingesting an id that is not yet in the info table makes
it considered deleted exactly when the signature's `avglf[0]` is `0`. -/
theorem C7_isDeleted_iff_avgl0_zero :
    (∀ (db : IQDB) (iqdb_id : postId),
      db.isDeleted iqdb_id = some true ↔
        ∃ info, db.m_info.lookup iqdb_id = some info ∧ info.avgl 0 = 0) ∧
    (∀ (db : IQDB) (iqdb_id : postId) (haar : HaarSignature),
      db.m_info.lookup iqdb_id = none →
        (db.addImageInMemory iqdb_id haar).isDeleted iqdb_id
          = some (decide (haar.avglf 0 = 0))) := by
  constructor
  · intro db iqdb_id
    cases e : db.m_info.lookup iqdb_id with
    | none => simp [IQDB.isDeleted, e]
    | some info => simp [IQDB.isDeleted, e]
  · intro db iqdb_id haar h
    have hnotsome : (db.m_info.lookup iqdb_id).isSome = false := by rw [h]; rfl
    rw [IQDB.isDeleted, IQDB.addImageInMemory]
    dsimp only
    rw [infoEmplace, hnotsome]
    simp only [Bool.false_eq_true, if_false]
    rw [lookup_append_of_none _ _ _ h]
    simp [List.lookup]

/-- C7 amended, witnessed at the ingested black image: its entry exists
and it is considered deleted precisely because `sigBlack.avglf[0] = 0`. -/
theorem C7_isDeleted_iff_avgl0_zero_witness :
    (IQDB.emptyDB.addImageInMemory "a" sigBlack).isDeleted "a"
      = some (decide (sigBlack.avglf 0 = 0)) :=
  C7_isDeleted_iff_avgl0_zero.2 IQDB.emptyDB "a" sigBlack rfl

/-- C8: removing an id that has no persisted row is a no-op: the bucket
set, the info table, `img_count` and the persisted table are all left
unchanged. -/
theorem C8_remove_absent_id_is_noop :
    ∀ (db : IQDB) (post_id : postId),
      db.sqlite_db.lookup post_id = none → db.removeImage post_id = db := by
  intro db post_id h
  rw [IQDB.removeImage, h]

set_option maxRecDepth 1000000 in
/-- C8 witnessed on a concrete store: removing the absent id `"z"` from a
store holding only `"b"` changes nothing. -/
theorem C8_remove_absent_id_is_noop_witness :
    stB.sqlite_db.lookup "z" = none ∧ stB.removeImage "z" = stB :=
  ⟨rfl, C8_remove_absent_id_is_noop stB "z" rfl⟩

/-- C9: a blob whose first two bytes are not `0xFF 0xD8` is rejected by
`resize_image_data` with the unsupported-format error before any
decoding, and `get_image_info` classifies a blob as JPEG exactly when it
starts with the `0xFF 0xD8` magic. -/
theorem C9_format_gating :
    ∀ (gdCreateTrueColor : ℕ → ℕ → Option RawImage)
      (gdDecodeJpeg : List ℕ → Option RawImage)
      (gdCopyResampled : RawImage → RawImage → ℕ → ℕ → RawImage)
      (data : List ℕ) (thu_x thu_y : ℕ),
      (startsWithJpegMagicSpec data = false →
        resize_image_data gdCreateTrueColor gdDecodeJpeg gdCopyResampled
          data thu_x thu_y = Except.error image_error.unsupportedFormat) ∧
      (get_image_info data = image_types.IMG_JPEG ↔
        startsWithJpegMagicSpec data = true) := by
  intro ctc dec res data thu_x thu_y
  have hiff : get_image_info data = image_types.IMG_JPEG ↔
      startsWithJpegMagicSpec data = true := by
    match data with
    | [] => simp [get_image_info, startsWithJpegMagicSpec]
    | [b0] => simp [get_image_info, startsWithJpegMagicSpec]
    | b0 :: b1 :: rest =>
      by_cases hb : b0 = 0xff ∧ b1 = 0xd8
      · simp [get_image_info, startsWithJpegMagicSpec, hb.1, hb.2]
      · simp only [get_image_info, startsWithJpegMagicSpec, if_neg hb]
        constructor
        · intro hc; exact absurd hc (by simp)
        · intro hc
          simp at hc
          exact absurd hc hb
  refine ⟨?_, hiff⟩
  intro hfalse
  have hne : get_image_info data ≠ image_types.IMG_JPEG := by
    intro hc
    rw [hiff.mp hc] at hfalse
    exact Bool.noConfusion hfalse
  rw [resize_image_data]
  simp only [if_pos hne]

/-- C9 witnessed on the PNG magic `0x89 0x50`: the resizer rejects it and
the classifier does not call it JPEG. -/
theorem C9_format_gating_witness :
    resize_image_data (fun _ _ => none) (fun _ => none) (fun t _ _ _ => t)
        [0x89, 0x50] 128 128 = Except.error image_error.unsupportedFormat :=
  (C9_format_gating (fun _ _ => none) (fun _ => none) (fun t _ _ _ => t)
    [0x89, 0x50] 128 128).1 (by decide)

/-- C10: queries are read-only: for every store, weight/bin table,
signature, blob extractor, blob and result count, `queryFromSignature`
and `queryFromBlob` hand back the store exactly as they received it;
only the result list is produced. -/
theorem C10_queries_are_read_only :
    ∀ (weights : Fin 6 → Fin 3 → Score) (imgBin : ℕ → Fin 6) (db : IQDB)
      (signature : HaarSignature) (numres : ℕ)
      (from_file_content : List ℕ → HaarSignature) (blob : List ℕ),
      (db.queryFromSignatureOp weights imgBin signature numres).1 = db ∧
      (db.queryFromBlobOp weights imgBin from_file_content blob numres).1 = db := by
  intro weights imgBin db signature numres from_file_content blob
  have h : ∀ (s : HaarSignature) (n : ℕ),
      (db.queryFromSignatureOp weights imgBin s n).1 = db := by
    intro s n
    rw [IQDB.queryFromSignatureOp]
    dsimp only
    rw [sweepFoldl_preserves_buckets]
  exact ⟨h signature numres, h (from_file_content blob) numres⟩

end Iqdb
